import Mathlib

/-!
Verification of the `PathBackend` file-storage backend
(`src/src/backend/path.rs`): a durable, atomic-save byte-blob store.

The filesystem is modelled as a map from paths (strings) to file contents
(byte lists).  Operations are explicit state-passing functions; OS-level
I/O failures are injected through an oracle parameter (`Option IoError`
for single-syscall operations, a per-step oracle for `put_data`).
`put_data` additionally records an event trace so that the ordering of
its protocol steps can be stated.
-/

/-- A filesystem state: each path maps to `some content` when a regular
file with that content exists there, `none` otherwise. -/
def Fs : Type := String → Option (List Nat)

/-- Create or overwrite the file at `p` with content `c`. -/
def Fs.set (fs : Fs) (p : String) (c : List Nat) : Fs :=
  fun q => if q = p then some c else fs q

/-- Remove the file at `p`. -/
def Fs.remove (fs : Fs) (p : String) : Fs :=
  fun q => if q = p then none else fs q

/-- OS error classification carried by `std::io::Error::kind()`.  The
spec requires at minimum NotFound, PermissionDenied and a catch-all. -/
inductive ErrorKind : Type
  | notFound
  | permissionDenied
  | other
deriving DecidableEq, Repr

/-- An OS-level I/O error, identified by its kind (`std::io::Error`). -/
structure IoError : Type where
  kind : ErrorKind
deriving DecidableEq, Repr

/-- Modelled from the spec: `error::BackendError` (file `src/error.rs`,
not included under `src/`) has a single I/O variant wrapping the
underlying OS error and preserving its classification; the in-src test
`test_path_backend_fail_notfound` destructures it as
`BackendError::Io(io_err)` and reads `io_err.kind()`. -/
inductive BackendError : Type
  | ioError (e : IoError)
deriving DecidableEq, Repr

/-- Model of Rust `Path::parent` for normal paths (no trailing slash, no
`.`/`..` components): the empty path and the root `"/"` have no parent;
a bare file name has parent `""`; `"/name"` has parent `"/"`; otherwise
the last `/`-separated component is dropped. -/
def pathParent (p : String) : Option String :=
  if p = "" ∨ p = "/" then none
  else
    match (p.splitOn "/").dropLast with
    | [] => some ""
    | [""] => some "/"
    | cs => some (String.intercalate "/" cs)

/-- The directory in which `put_data` creates its temporary file:
`self.path.parent().unwrap_or(Path::new("."))`. -/
def tempDirOf (p : String) : String :=
  (pathParent p).getD "."

/-- `PathBackend::from_path_or_fail`: `OpenOptions::new().read(true)
.open(path)?` — a read-only open, failing with the OS `NotFound` error
when the file is absent (or with an injected OS error `osErr`), then
`Ok(Self { path })`.  Returns the handle's path and the (unchanged)
filesystem. -/
def from_path_or_fail (fs : Fs) (path : String) (osErr : Option IoError) :
    Except BackendError String × Fs :=
  match osErr with
  | some e => (.error (.ioError e), fs)
  | none =>
    match fs path with
    | none => (.error (.ioError ⟨.notFound⟩), fs)
    | some _ => (.ok path, fs)

/-- `PathBackend::from_path_or_create`: `exists = path.is_file()`, then
`OpenOptions::new().write(true).create(true).open(path)?` — creates an
empty file when absent, opens the existing file untruncated otherwise —
then `Ok((Self { path }, exists))`. -/
def from_path_or_create (fs : Fs) (path : String) (osErr : Option IoError) :
    Except BackendError (String × Bool) × Fs :=
  let existed := (fs path).isSome
  match osErr with
  | some e => (.error (.ioError e), fs)
  | none =>
    if existed then (.ok (path, true), fs)
    else (.ok (path, false), fs.set path [])

/-- `PathBackend::from_path_or_create_and`: `exists = path.is_file()`,
then `OpenOptions::new().read(true).write(true).create(true).open(path)?`
(creates an empty file when absent, no truncation), then
`if !exists { closure(&mut file).await }`, then `Ok(Self { path })`.
The closure has Rust type `AsyncFnOnce(&mut File)` — it returns `()`,
so it is modelled as a total function from the file's content to the
content it leaves behind; it has no error channel.  The third component
of the result counts how many times the closure was invoked. -/
def from_path_or_create_and (fs : Fs) (path : String)
    (closure : List Nat → List Nat) (osErr : Option IoError) :
    Except BackendError String × Fs × Nat :=
  let existed := (fs path).isSome
  match osErr with
  | some e => (.error (.ioError e), fs, 0)
  | none =>
    if existed then (.ok path, fs, 0)
    else (.ok path, fs.set path (closure []), 1)

/-- `Backend::get_data` for `PathBackend`: a fresh
`OpenOptions::new().read(true).open(self.path)?` on every call (no
descriptor is cached — the result depends only on the current
filesystem state), then `read_to_end` into a buffer returned in full.
The OS `NotFound` kind is produced when the path is absent; `osErr`
injects any other OS failure of the open/read.  Returns the buffer and
the (unchanged) filesystem. -/
def get_data (fs : Fs) (path : String) (osErr : Option IoError) :
    Except BackendError (List Nat) × Fs :=
  match osErr with
  | some e => (.error (.ioError e), fs)
  | none =>
    match fs path with
    | none => (.error (.ioError ⟨.notFound⟩), fs)
    | some c => (.ok c, fs)

/-- The four fallible steps of `put_data`, in source order:
`NamedTempFile::new_in`, `write_all`, `sync_all`, `persist`. -/
inductive PutStep : Type
  | createTemp
  | writeTemp
  | syncTemp
  | rename
deriving DecidableEq, Repr

/-- Observable filesystem events of one `put_data` run. -/
inductive PutEv : Type
  | createTemp (dir : String) (name : String)
  | writeAll (data : List Nat)
  | syncAll
  | persist (src : String) (dst : String)
  | removeTemp (name : String)
deriving DecidableEq, Repr

/-- Result of one `put_data` run: the returned value, the final
filesystem, and the trace of filesystem events. -/
structure PutResult : Type where
  res : Except BackendError Unit
  fs : Fs
  trace : List PutEv

/-- `Backend::put_data` for `PathBackend`:
`let mut tempf = NamedTempFile::new_in(self.path.parent().unwrap_or(Path::new(".")))?;`
`tempf.write_all(data)?; tempf.as_file().sync_all()?;`
`tempf.persist(self.path.as_path())?; Ok(())`.
`tmp` is the fresh unique name `NamedTempFile` picks inside
`tempDirOf path`; `fail` injects an OS error at a given step.  On any
early `?` return the `NamedTempFile` guard is dropped (for `persist`,
the `PersistError` carries the file and dropping it has the same
effect), which deletes the temporary file — modelled as `Fs.remove tmp`
plus a `removeTemp` trace event.  A successful `persist` renames `tmp`
onto `path` in one operation. -/
def put_data (fs : Fs) (path : String) (data : List Nat) (tmp : String)
    (fail : PutStep → Option IoError) : PutResult :=
  match fail .createTemp with
  | some e => ⟨.error (.ioError e), fs, []⟩
  | none =>
    let fs1 := fs.set tmp []
    let tr1 := [PutEv.createTemp (tempDirOf path) tmp]
    match fail .writeTemp with
    | some e => ⟨.error (.ioError e), fs1.remove tmp, tr1 ++ [.removeTemp tmp]⟩
    | none =>
      let fs2 := fs1.set tmp data
      let tr2 := tr1 ++ [PutEv.writeAll data]
      match fail .syncTemp with
      | some e => ⟨.error (.ioError e), fs2.remove tmp, tr2 ++ [.removeTemp tmp]⟩
      | none =>
        let tr3 := tr2 ++ [PutEv.syncAll]
        match fail .rename with
        | some e => ⟨.error (.ioError e), fs2.remove tmp, tr3 ++ [.removeTemp tmp]⟩
        | none => ⟨.ok (), (fs2.remove tmp).set path data, tr3 ++ [.persist tmp path]⟩

/-- The empty filesystem. -/
def fsEmpty : Fs := fun _ => none

/-- A filesystem holding one file `"db"` with content `[1, 2, 3]`. -/
def fsOne : Fs := fun q => if q = "db" then some [1, 2, 3] else none

/-- The oracle injecting no OS failure at any step. -/
def noFail : PutStep → Option IoError := fun _ => none

/-- An oracle failing the `write_all` step with a generic OS error. -/
def failWrite : PutStep → Option IoError :=
  fun s => if s = .writeTemp then some ⟨.other⟩ else none

/-- A seed initializer used in witnesses: writes `[9, 8, 7]`. -/
def seedContent : List Nat → List Nat := fun _ => [9, 8, 7]

/-- A fallible initializer, as the spec describes one, that always
fails with a generic OS error. -/
def failingInit : List Nat → Except IoError (List Nat) :=
  fun _ => .error ⟨.other⟩

/-- The only way a caller can hand a fallible initializer to
`from_path_or_create_and`: wrap it in a closure of the required Rust
type `AsyncFnOnce(&mut File)`, which returns `()` and therefore must
discard the initializer's error. -/
def adaptInit (init : List Nat → Except IoError (List Nat)) :
    List Nat → List Nat :=
  fun c =>
    match init c with
    | .ok c' => c'
    | .error _ => c

/-- C5: `from_path_or_fail` on an absent path fails with the OS
NotFound error kind wrapped unchanged in the backend error, and on any
call (absent, present, or injected OS failure) the filesystem is not
mutated; on an existing accessible file it succeeds and returns a
handle bound to that path. -/
theorem from_path_or_fail_spec (fs : Fs) (path : String) :
    (fs path = none →
      (from_path_or_fail fs path none).1 = .error (.ioError ⟨.notFound⟩)) ∧
    (∀ c, fs path = some c → (from_path_or_fail fs path none).1 = .ok path) ∧
    (∀ osErr, (from_path_or_fail fs path osErr).2 = fs) := by
  refine ⟨fun h => ?_, fun c h => ?_, fun osErr => ?_⟩
  · simp [from_path_or_fail, h]
  · simp [from_path_or_fail, h]
  · cases osErr with
    | some e => simp [from_path_or_fail]
    | none => cases h : fs path <;> simp [from_path_or_fail, h]

/-- Witness for `from_path_or_fail_spec` at concrete filesystems. -/
theorem from_path_or_fail_spec_witness :
    (from_path_or_fail fsEmpty "db" none).1 = .error (.ioError ⟨.notFound⟩) ∧
    (from_path_or_fail fsOne "db" none).1 = .ok "db" ∧
    (from_path_or_fail fsOne "db" none).2 = fsOne :=
  ⟨(from_path_or_fail_spec fsEmpty "db").1 rfl,
   (from_path_or_fail_spec fsOne "db").2.1 [1, 2, 3] (by decide),
   (from_path_or_fail_spec fsOne "db").2.2 none⟩

/-- C4: `from_path_or_create` on a path with a pre-existing file
returns `existed = true`; on an absent path it returns
`existed = false` and creates a zero-length file there. -/
theorem from_path_or_create_existence (fs : Fs) (path : String) :
    (∀ c, fs path = some c →
      (from_path_or_create fs path none).1 = .ok (path, true)) ∧
    (fs path = none →
      (from_path_or_create fs path none).1 = .ok (path, false) ∧
      (from_path_or_create fs path none).2 path = some []) := by
  refine ⟨fun c h => ?_, fun h => ⟨?_, ?_⟩⟩
  · simp [from_path_or_create, h]
  · simp [from_path_or_create, h]
  · simp [from_path_or_create, h, Fs.set]

/-- Witness for `from_path_or_create_existence` at concrete
filesystems. -/
theorem from_path_or_create_existence_witness :
    (from_path_or_create fsOne "db" none).1 = .ok ("db", true) ∧
    ((from_path_or_create fsEmpty "db" none).1 = .ok ("db", false) ∧
     (from_path_or_create fsEmpty "db" none).2 "db" = some []) :=
  ⟨(from_path_or_create_existence fsOne "db").1 [1, 2, 3] (by decide),
   (from_path_or_create_existence fsEmpty "db").2 rfl⟩

/-- C9: the creating open of `from_path_or_create` uses
`write(true).create(true)` without truncation, so on a path with a
pre-existing file the filesystem — in particular that file's content —
is left completely unchanged, whether the open succeeds or fails. -/
theorem from_path_or_create_preserves_content (fs : Fs) (path : String)
    (c : List Nat) (h : fs path = some c) (osErr : Option IoError) :
    (from_path_or_create fs path osErr).2 = fs ∧
    (from_path_or_create fs path osErr).2 path = some c := by
  have h2 : (from_path_or_create fs path osErr).2 = fs := by
    cases osErr <;> simp [from_path_or_create, h]
  exact ⟨h2, by rw [h2, h]⟩

/-- Witness for `from_path_or_create_preserves_content` at a concrete
filesystem. -/
theorem from_path_or_create_preserves_content_witness :
    (from_path_or_create fsOne "db" none).2 = fsOne ∧
    (from_path_or_create fsOne "db" none).2 "db" = some [1, 2, 3] :=
  from_path_or_create_preserves_content fsOne "db" [1, 2, 3] (by decide) none

/-- C3: `from_path_or_create_and` on an absent path invokes the
closure exactly once and the resulting blob equals what the closure
wrote into the fresh empty file; on a path with a pre-existing file it
never invokes the closure and leaves the filesystem untouched. -/
theorem from_path_or_create_and_seed_once (fs : Fs) (path : String)
    (closure : List Nat → List Nat) :
    (fs path = none →
      (from_path_or_create_and fs path closure none).2.2 = 1 ∧
      (from_path_or_create_and fs path closure none).1 = .ok path ∧
      (from_path_or_create_and fs path closure none).2.1 path =
        some (closure [])) ∧
    (∀ c, fs path = some c →
      (from_path_or_create_and fs path closure none).2.2 = 0 ∧
      (from_path_or_create_and fs path closure none).2.1 = fs) := by
  refine ⟨fun h => ?_, fun c h => ?_⟩
  · refine ⟨?_, ?_, ?_⟩ <;> simp [from_path_or_create_and, h, Fs.set]
  · refine ⟨?_, ?_⟩ <;> simp [from_path_or_create_and, h]

/-- Witness for `from_path_or_create_and_seed_once` at concrete
filesystems and a concrete seed initializer. -/
theorem from_path_or_create_and_seed_once_witness :
    ((from_path_or_create_and fsEmpty "db" seedContent none).2.2 = 1 ∧
     (from_path_or_create_and fsEmpty "db" seedContent none).1 = .ok "db" ∧
     (from_path_or_create_and fsEmpty "db" seedContent none).2.1 "db" =
       some (seedContent [])) ∧
    ((from_path_or_create_and fsOne "db" seedContent none).2.2 = 0 ∧
     (from_path_or_create_and fsOne "db" seedContent none).2.1 = fsOne) :=
  ⟨(from_path_or_create_and_seed_once fsEmpty "db" seedContent).1 rfl,
   (from_path_or_create_and_seed_once fsOne "db" seedContent).2 [1, 2, 3]
     (by decide)⟩

/-- C1: whenever `put_data` succeeds, the persisted blob at the target
path equals the input buffer exactly (for every buffer, the empty one
included), and a subsequent `get_data` on the same handle returns
exactly that buffer. -/
theorem put_get_roundtrip (fs : Fs) (path : String) (data : List Nat)
    (tmp : String) (fail : PutStep → Option IoError)
    (h : (put_data fs path data tmp fail).res = .ok ()) :
    (put_data fs path data tmp fail).fs path = some data ∧
    (get_data (put_data fs path data tmp fail).fs path none).1 = .ok data := by
  cases hc : fail .createTemp with
  | some e => simp [put_data, hc] at h
  | none =>
  cases hw : fail .writeTemp with
  | some e => simp [put_data, hc, hw] at h
  | none =>
  cases hs : fail .syncTemp with
  | some e => simp [put_data, hc, hw, hs] at h
  | none =>
  cases hr : fail .rename with
  | some e => simp [put_data, hc, hw, hs, hr] at h
  | none =>
    have hfs : (put_data fs path data tmp fail).fs path = some data := by
      simp [put_data, hc, hw, hs, hr, Fs.set]
    exact ⟨hfs, by simp [get_data, hfs]⟩

/-- Witness for `put_get_roundtrip`: the empty-buffer round trip on a
fresh file, with no injected failure. -/
theorem put_get_roundtrip_witness :
    (put_data fsEmpty "db" [] ".tmpQ" noFail).fs "db" = some [] ∧
    (get_data (put_data fsEmpty "db" [] ".tmpQ" noFail).fs "db" none).1 =
      .ok [] :=
  put_get_roundtrip fsEmpty "db" [] ".tmpQ" noFail rfl

/-- Removing a path that no file occupies leaves the filesystem
unchanged. -/
theorem remove_fresh (fs : Fs) (tmp : String) (hfresh : fs tmp = none) :
    fs.remove tmp = fs := by
  funext q
  by_cases hq : q = tmp
  · subst hq; simp [Fs.remove, hfresh]
  · simp [Fs.remove, hq]

/-- Removing a path cancels any write made at that same path. -/
theorem remove_set_same (fs : Fs) (tmp : String) (c : List Nat) :
    (fs.set tmp c).remove tmp = fs.remove tmp := by
  funext q
  by_cases hq : q = tmp <;> simp [Fs.set, Fs.remove, hq]

/-- C2: if any step of `put_data` fails — creating the temporary file,
writing to it, syncing it, or the final rename — the whole filesystem,
and in particular the blob previously persisted at the target path, is
left unchanged; the temporary file is discarded; and the error returned
to the caller is I/O-class. -/
theorem put_data_error_frame (fs : Fs) (path : String) (data : List Nat)
    (tmp : String) (fail : PutStep → Option IoError) (e : BackendError)
    (hfresh : fs tmp = none)
    (h : (put_data fs path data tmp fail).res = .error e) :
    (put_data fs path data tmp fail).fs = fs ∧
    (put_data fs path data tmp fail).fs path = fs path ∧
    (put_data fs path data tmp fail).fs tmp = none ∧
    ∃ ioe, e = .ioError ioe := by
  obtain ⟨ioe⟩ := e
  have hframe : (put_data fs path data tmp fail).fs = fs := by
    cases hc : fail .createTemp with
    | some e1 => simp [put_data, hc]
    | none =>
    cases hw : fail .writeTemp with
    | some e1 =>
      simp [put_data, hc, hw, remove_set_same, remove_fresh fs tmp hfresh]
    | none =>
    cases hs : fail .syncTemp with
    | some e1 =>
      simp [put_data, hc, hw, hs, remove_set_same, remove_fresh fs tmp hfresh]
    | none =>
    cases hr : fail .rename with
    | some e1 =>
      simp [put_data, hc, hw, hs, hr, remove_set_same,
        remove_fresh fs tmp hfresh]
    | none => simp [put_data, hc, hw, hs, hr] at h
  exact ⟨hframe, by rw [hframe], by rw [hframe]; exact hfresh, ioe, rfl⟩

/-- Witness for `put_data_error_frame`: an injected failure of the
`write_all` step on a filesystem already holding the target file. -/
theorem put_data_error_frame_witness :
    (put_data fsOne "db" [7] ".tmpQ" failWrite).fs = fsOne ∧
    (put_data fsOne "db" [7] ".tmpQ" failWrite).fs "db" = fsOne "db" ∧
    (put_data fsOne "db" [7] ".tmpQ" failWrite).fs ".tmpQ" = none ∧
    ∃ ioe, BackendError.ioError ⟨.other⟩ = .ioError ioe :=
  put_data_error_frame fsOne "db" [7] ".tmpQ" failWrite
    (.ioError ⟨.other⟩) (by decide) rfl

/-- C6: on a failure-free run, `put_data` performs exactly, and in this
order: creation of the fresh temporary file in the parent directory of
the target path, one write of the entire input buffer, one sync to
stable storage, and only then the single rename of the temporary file
onto the target path; the directory used for the temporary file is the
target's parent, falling back to `"."` when the target has no parent;
and the rename is the one step that changes the target path, replacing
the whole filesystem in a single operation by the buffer at the target. -/
theorem put_data_step_order (fs : Fs) (path : String) (data : List Nat)
    (tmp : String) (hfresh : fs tmp = none) :
    (put_data fs path data tmp noFail).trace =
      [PutEv.createTemp (tempDirOf path) tmp, PutEv.writeAll data,
       PutEv.syncAll, PutEv.persist tmp path] ∧
    (pathParent path = none → tempDirOf path = ".") ∧
    (∀ d, pathParent path = some d → tempDirOf path = d) ∧
    (put_data fs path data tmp noFail).fs = (fs.remove tmp).set path data ∧
    (put_data fs path data tmp noFail).fs = fs.set path data := by
  refine ⟨?_, ?_, ?_, ?_, ?_⟩
  · simp [put_data, noFail]
  · intro h; simp [tempDirOf, h]
  · intro d h; simp [tempDirOf, h]
  · simp [put_data, noFail, remove_set_same]
  · simp [put_data, noFail, remove_set_same, remove_fresh fs tmp hfresh]

/-- Witness for `put_data_step_order` on a concrete path with a parent
directory. -/
theorem put_data_step_order_witness :
    (put_data fsEmpty "dir/db" [7] "dir/.tmpQ" noFail).trace =
      [PutEv.createTemp (tempDirOf "dir/db") "dir/.tmpQ",
       PutEv.writeAll [7], PutEv.syncAll,
       PutEv.persist "dir/.tmpQ" "dir/db"] ∧
    (pathParent "dir/db" = none → tempDirOf "dir/db" = ".") ∧
    (∀ d, pathParent "dir/db" = some d → tempDirOf "dir/db" = d) ∧
    (put_data fsEmpty "dir/db" [7] "dir/.tmpQ" noFail).fs =
      (fsEmpty.remove "dir/.tmpQ").set "dir/db" [7] ∧
    (put_data fsEmpty "dir/db" [7] "dir/.tmpQ" noFail).fs =
      fsEmpty.set "dir/db" [7] :=
  put_data_step_order fsEmpty "dir/db" [7] "dir/.tmpQ" rfl

/-- C8: `get_data` is a function of the current filesystem state alone
(fresh open, no cached descriptor); it returns the full content stored
at the path when one exists, fails with the OS NotFound kind when the
path is absent (for instance after the file has been removed), and
propagates any other OS error kind of the open or read unchanged. -/
theorem get_data_fresh_read (fs : Fs) (path : String) :
    (∀ c, fs path = some c → (get_data fs path none).1 = .ok c) ∧
    (fs path = none →
      (get_data fs path none).1 = .error (.ioError ⟨.notFound⟩)) ∧
    ((fs.remove path) path = none ∧
      (get_data (fs.remove path) path none).1 =
        .error (.ioError ⟨.notFound⟩)) ∧
    (∀ e, (get_data fs path (some e)).1 = .error (.ioError e)) := by
  have hrem : (fs.remove path) path = none := by simp [Fs.remove]
  refine ⟨fun c h => ?_, fun h => ?_, ⟨hrem, ?_⟩, fun e => ?_⟩
  · simp [get_data, h]
  · simp [get_data, h]
  · simp [get_data, hrem]
  · simp [get_data]

/-- Witness for `get_data_fresh_read` at a concrete filesystem. -/
theorem get_data_fresh_read_witness :
    (get_data fsOne "db" none).1 = .ok [1, 2, 3] ∧
    (get_data fsEmpty "db" none).1 = .error (.ioError ⟨.notFound⟩) ∧
    (get_data fsOne "db" (some ⟨.permissionDenied⟩)).1 =
      .error (.ioError ⟨.permissionDenied⟩) :=
  ⟨(get_data_fresh_read fsOne "db").1 [1, 2, 3] (by decide),
   (get_data_fresh_read fsEmpty "db").2.1 rfl,
   (get_data_fresh_read fsOne "db").2.2.2 ⟨.permissionDenied⟩⟩

/-- C10: `get_data` opens the target read-only and never modifies any
filesystem state: on every call — successful, NotFound, or any other
injected OS failure — the filesystem after the call, and in particular
the persisted blob at the target path, equals the one before it. -/
theorem get_data_no_mutation (fs : Fs) (path : String)
    (osErr : Option IoError) : (get_data fs path osErr).2 = fs := by
  cases osErr with
  | some e => simp [get_data]
  | none => cases h : fs path <;> simp [get_data, h]

/-- Witness for `get_data_no_mutation` at a concrete filesystem. -/
theorem get_data_no_mutation_witness :
    (get_data fsOne "db" none).2 = fsOne :=
  get_data_no_mutation fsOne "db" none

/-- Counterexample to C7 as stated: the closure parameter of
`from_path_or_create_and` has Rust type `AsyncFnOnce(&mut File)`, which
returns `()` — an initializer can only be passed with its error
discarded (`adaptInit`).  Here a fallible initializer fails on the
fresh empty file, yet `from_path_or_create_and` on an absent path
succeeds after having invoked it: the initializer's error does not
propagate and the operation succeeds although the initializer failed. -/
theorem from_path_or_create_and_swallows_init_error :
    failingInit [] = .error ⟨.other⟩ ∧
    (from_path_or_create_and fsEmpty "db" (adaptInit failingInit) none).2.2
      = 1 ∧
    (from_path_or_create_and fsEmpty "db" (adaptInit failingInit) none).1
      = .ok "db" :=
  ⟨rfl, rfl, rfl⟩

/-- C7 amended: the initializer passed to `from_path_or_create_and`
returns no error value, so it cannot make the operation fail: whenever
the open itself succeeds the operation returns `Ok` regardless of the
closure (in particular even when work inside the closure failed and
the closure discarded the error), and the only errors the caller can
see are I/O errors of the open, propagated unchanged. -/
theorem from_path_or_create_and_initializer_cannot_fail (fs : Fs)
    (path : String) (closure : List Nat → List Nat) :
    (from_path_or_create_and fs path closure none).1 = .ok path ∧
    (∀ e, (from_path_or_create_and fs path closure (some e)).1 =
      .error (.ioError e)) := by
  refine ⟨?_, fun e => ?_⟩
  · cases h : (fs path).isSome <;> simp [from_path_or_create_and, h]
  · simp [from_path_or_create_and]
